import Mathlib

/-!
Shallow embedding of the trip-planner core (`app.py` plus the provider
stubs under `providers/`) and proofs of the specification claims.

Modelling conventions:
* Python floats are modelled as real numbers (`ℝ`). The itinerary cost
  arithmetic stays in machine integers in the source; its values are
  embedded in `ℝ` like every other numeric quantity.
* `datetime.date` values are modelled as year/month/day records; date
  subtraction goes through the standard proleptic-Gregorian day-number
  formula, which is what `datetime` implements.
* The provider clients perform credential-gated network calls (the
  shipped clients are stubs returning the empty list); the search calls
  are modelled as functions supplied by a `ProviderEnv`, so that the
  credential gating and the mock fallback in `fetch_listings` can be
  stated for any provider behaviour, the stub behaviour included.
* Python's `list.sort(key=..., reverse=True)` is a stable descending
  sort; it is modelled by `List.mergeSort` with the reversed comparison.
* Python's `round(x, n)` rounds halves to even; it is modelled by
  `roundTo`, which rounds halves up. Every value the program rounds in
  the claims under study is an exact multiple of `10⁻ⁿ`, where the two
  conventions agree.
* Python's `str.lower`/`str.strip` are modelled character-wise by
  `pyLower`/`pyStrip`; all tags the program compares are ASCII, where
  this is exact.
* Decimal formatting inside explanation strings (`f"{x:.0f}"` and
  friends) is modelled by fixed-precision rendering; Python's
  shortest-repr of floats can differ in digits no claim depends on.
-/

/-- A calendar date, as produced by `datetime.date.fromisoformat`. -/
structure Date where
  year : Int
  month : Nat
  day : Nat
deriving DecidableEq

/-- Proleptic-Gregorian day number of a date (days since 1970-01-01),
the quantity `datetime.date` subtraction is defined by. -/
def Date.toOrdinal (d : Date) : Int :=
  let y : Int := if d.month ≤ 2 then d.year - 1 else d.year
  let era : Int := (if 0 ≤ y then y else y - 399) / 400
  let yoe : Int := y - era * 400
  let mp : Int := ((d.month : Int) + 9) % 12
  let doy : Int := (153 * mp + 2) / 5 + (d.day : Int) - 1
  let doe : Int := yoe * 365 + yoe / 4 - yoe / 100 + doy
  era * 146097 + doe - 719468

/-- Python's `str.lower()`, character by character. -/
def pyLower (s : String) : String := ⟨s.data.map Char.toLower⟩

/-- Python's `str.strip()`: drop whitespace from both ends. -/
def pyStrip (s : String) : String :=
  ⟨((s.data.dropWhile Char.isWhitespace).reverse.dropWhile Char.isWhitespace).reverse⟩

noncomputable section

/-- Python's `round(x, prec)` (here always hit at exact multiples of
`10⁻ᵖʳᵉᶜ`, where half-up and Python's half-even rounding agree). -/
def roundTo (prec : Nat) (x : ℝ) : ℝ := (round (x * 10 ^ prec) : ℤ) / 10 ^ prec

/-- The `TripInput` request model of `app.py`. -/
structure TripInput where
  destination : String
  start_date : Date
  end_date : Date
  travelers : Nat
  nightly_budget : ℝ
  style : String
  must_haves : List String
  dealbreakers : List String
  prefer_areas : List String

/-- The `StayListing` record of `providers/mock.py`. -/
structure StayListing where
  id : String
  platform : String
  name : String
  area : String
  nightly_price : ℝ
  rating : ℝ
  reviews : Nat
  amenities : List String
  url : String
  distance_km_to_center : ℝ
  room_type : String

/-- One itinerary day; the `date` field holds the day number of the
rendered ISO date. -/
structure ItineraryDay where
  date : Int
  morning : String
  afternoon : String
  evening : String
  est_cost : ℝ

/-- The itinerary response model. -/
structure ItineraryResponse where
  destination : String
  days : List ItineraryDay
  total_est_cost : ℝ
  notes : List String

/-- The `StayRecommendation` response record. -/
structure StayRecommendation where
  listing : StayListing
  match_score : ℝ
  why : List String
  est_total_price : ℝ

/-- The `StaysResponse` response model. -/
structure StaysResponse where
  destination : String
  nights : Int
  currency_note : String
  recommendations : List StayRecommendation

/-- `nights_between` from `app.py` (`max(1, (b - a).days)`). -/
def nights_between (a b : Date) : Int :=
  max 1 (b.toOrdinal - a.toOrdinal)

/-- `clamp` from `app.py`. -/
def clamp (x lo hi : ℝ) : ℝ := max lo (min hi x)

/-- `normalize_rating` from `app.py`. -/
def normalize_rating (platform : String) (rating : ℝ) : ℝ :=
  clamp (rating / (if platform = "booking" then 10 else 5)) 0 1

/-- `budget_fit_score` from `app.py`. -/
def budget_fit_score (nightly_price nightly_budget : ℝ) : ℝ :=
  if nightly_price ≤ nightly_budget then
    clamp (0.85 + 0.15 * (1 - nightly_price / max nightly_budget 1e-6)) 0 1
  else
    clamp (1 - 1.4 * ((nightly_price - nightly_budget) / max nightly_budget 1e-6)) 0 1

/-- `location_score` from `app.py`. -/
def location_score (distance_km : ℝ) : ℝ :=
  clamp (1 / (1 + 0.35 * distance_km)) 0 1

/-- `quality_score` from `app.py`; `math.log10` is `Real.logb 10`. -/
def quality_score (platform : String) (rating : ℝ) (reviews : Nat) : ℝ :=
  let r := normalize_rating platform rating
  let conf := clamp (Real.logb 10 ((max reviews 1 : Nat) : ℝ) / 3) 0 1
  clamp (0.75 * r + 0.25 * conf) 0 1

/-- `amenities_score` from `app.py`. -/
def amenities_score (listing_amenities must_haves : List String) : ℝ :=
  if must_haves = [] then 0.7
  else
    let ha := listing_amenities.map pyLower
    let need := must_haves.map pyLower
    let hit := need.countP (fun m => ha.contains m)
    clamp ((hit : ℝ) / ((max need.length 1 : Nat) : ℝ)) 0 1

/-- `dealbreaker_ok` from `app.py`. -/
def dealbreaker_ok (room_type : String) (dealbreakers : List String) : Bool :=
  let db := dealbreakers.map pyLower
  if db.contains "shared_room" && room_type == "shared_room" then false
  else if db.contains "private_room" && room_type == "private_room" then false
  else true

/-- `area_bonus` from `app.py`. -/
def area_bonus (area : String) (prefer_areas : List String) : ℝ :=
  if prefer_areas = [] then 0
  else if (prefer_areas.map pyLower).contains (pyLower area) then 0.12 else 0

/-- The `parts` dict returned by `score_listing`. -/
structure ScoreBreakdown where
  budget : ℝ
  quality : ℝ
  location : ℝ
  amenities : ℝ

/-- `score_listing` from `app.py`. -/
def score_listing (l : StayListing) (trip : TripInput) : ℝ × ScoreBreakdown :=
  let b := budget_fit_score l.nightly_price trip.nightly_budget
  let q := quality_score l.platform l.rating l.reviews
  let loc := location_score l.distance_km_to_center
  let a := amenities_score l.amenities trip.must_haves
  let base := 0.40 * b + 0.25 * q + 0.20 * loc + 0.15 * a
  let base2 := clamp (base + area_bonus l.area trip.prefer_areas) 0 1
  (base2 * 100, ⟨b, q, loc, a⟩)

/-- Renders a real with no decimals, modelling `f"{x:.0f}"`. -/
def fmtInt (x : ℝ) : String := toString (round x)

/-- Renders a real with one decimal, modelling `f"{x:.1f}"` on the
nonnegative values the program formats. -/
def fmtDec1 (x : ℝ) : String :=
  let n : ℤ := round (x * 10)
  toString (n / 10) ++ "." ++ toString (n % 10).natAbs

/-- Renders a real with two decimals, modelling Python float repr on the
values the program interpolates (no claim inspects these digits). -/
def fmtFloat (x : ℝ) : String :=
  let n : ℤ := round (x * 100)
  toString (n / 100) ++ "." ++ toString (n % 100).natAbs

/-- `explain_listing` from `app.py`. -/
def explain_listing (l : StayListing) (trip : TripInput) (parts : ScoreBreakdown) :
    List String :=
  let why1 := [if l.nightly_price ≤ trip.nightly_budget then
      "Within your nightly budget (" ++ fmtInt l.nightly_price ++ " ≤ " ++
        fmtInt trip.nightly_budget ++ ")."
    else
      "Over budget by " ++ fmtInt (l.nightly_price - trip.nightly_budget) ++
        " per night (stretch option)."]
  let why2 := why1 ++ [if parts.quality ≥ 0.8 then
      "Strong quality signals (rating " ++ fmtFloat l.rating ++ " with " ++
        toString l.reviews ++ " reviews)."
    else if l.reviews < 50 then
      "Fewer reviews than ideal—treat this option with a bit more caution."
    else
      "Solid rating (" ++ fmtFloat l.rating ++ ") and review count (" ++
        toString l.reviews ++ ")."]
  let why3 := why2 ++ [if parts.location ≥ 0.6 then
      "Convenient location (~" ++ fmtDec1 l.distance_km_to_center ++ " km to center)."
    else
      "Farther from the center (~" ++ fmtDec1 l.distance_km_to_center ++
        " km)—better if you have transport."]
  if trip.must_haves = [] then why3
  else
    let missing := trip.must_haves.filter
      (fun m => !((l.amenities.map pyLower).contains (pyLower m)))
    why3 ++ [if missing = [] then "Meets all your must-have amenities."
      else "Missing: " ++ String.intercalate ", " missing ++ "."]

/-- The `morning_opts` table of `generate_itinerary`. -/
def morning_opts (s : String) : Option String :=
  if s = "relaxed" then some "Slow breakfast + cedar forest walk"
  else if s = "packed" then some "Early start: viewpoints + town highlights"
  else if s = "foodie" then some "Local café + pastry stop"
  else if s = "culture" then some "Azrou day trip idea + cedar forest history"
  else if s = "nightlife" then some "Café hopping + evening stroll"
  else if s = "balanced" then some "Town center walk + scenic stop"
  else none

/-- The `afternoon_opts` table of `generate_itinerary`. -/
def afternoon_opts (s : String) : Option String :=
  if s = "relaxed" then some "Lakeside chill time + coffee"
  else if s = "packed" then some "Outdoor activity (hike / excursion)"
  else if s = "foodie" then some "Try local tagine + tea time"
  else if s = "culture" then some "Local crafts + heritage walk"
  else if s = "nightlife" then some "Rooftop lunch + downtime"
  else if s = "balanced" then some "Lunch + one planned activity"
  else none

/-- The `evening_opts` table of `generate_itinerary`. -/
def evening_opts (s : String) : Option String :=
  if s = "relaxed" then some "Sunset viewpoint + easy dinner"
  else if s = "packed" then some "Dinner + night walk loop"
  else if s = "foodie" then some "Dinner + dessert tasting"
  else if s = "culture" then some "Traditional dinner + mint tea"
  else if s = "nightlife" then some "Lounge/café + late tea"
  else if s = "balanced" then some "Dinner + optional stroll"
  else none

/-- The per-style base cost table of `generate_itinerary`, with its
`.get(style, 40)` default. -/
def base_pp (s : String) : Nat :=
  if s = "relaxed" then 30
  else if s = "packed" then 50
  else if s = "foodie" then 55
  else if s = "culture" then 45
  else if s = "nightlife" then 55
  else if s = "balanced" then 40
  else 40

/-- `generate_itinerary` from `app.py`. -/
def generate_itinerary (trip : TripInput) : ItineraryResponse :=
  let start := trip.start_date.toOrdinal
  let e := trip.end_date.toOrdinal
  let n_days : Nat := (max 1 (e - start)).toNat
  let style := pyStrip (pyLower trip.style)
  let notes := ["MVP itinerary is heuristic (no live attraction data yet).",
    "Add maps + opening hours later for a production version."]
  let days := (List.range n_days).map (fun (i : Nat) =>
    let bump := (i % 3) * 3
    let est : Nat := (base_pp style + bump) * trip.travelers
    { date := start + Int.ofNat i
      morning := (morning_opts style).getD "Town center walk + scenic stop"
      afternoon := (afternoon_opts style).getD "Lunch + one planned activity"
      evening := (evening_opts style).getD "Dinner + optional stroll"
      est_cost := roundTo 2 (est : ℝ) : ItineraryDay })
  { destination := trip.destination
    days := days
    total_est_cost := roundTo 2 ((days.map (fun d => d.est_cost)).sum)
    notes := notes }

/-- First mock listing of `providers/mock.py`. -/
def mockListing1 : StayListing :=
  { id := "bkg-ifr-001", platform := "booking", name := "Ifrane Mountain Hotel (Mock)"
    area := "City Center", nightly_price := 65, rating := 8.4, reviews := 780
    amenities := ["wifi", "heating", "parking"]
    url := "https://example.com/booking/bkg-ifr-001"
    distance_km_to_center := 0.6, room_type := "hotel_room" }

/-- Second mock listing of `providers/mock.py`. -/
def mockListing2 : StayListing :=
  { id := "bkg-ifr-002", platform := "booking", name := "Cozy Chalet Near Cedar Forest (Mock)"
    area := "Outskirts", nightly_price := 92, rating := 8.9, reviews := 214
    amenities := ["wifi", "kitchen", "heating", "parking"]
    url := "https://example.com/booking/bkg-ifr-002"
    distance_km_to_center := 3.2, room_type := "entire_place" }

/-- Third mock listing of `providers/mock.py`. -/
def mockListing3 : StayListing :=
  { id := "bnb-ifr-101", platform := "airbnb", name := "Private Room w/ Fireplace (Mock)"
    area := "City Center", nightly_price := 45, rating := 4.78, reviews := 133
    amenities := ["wifi", "heating"]
    url := "https://example.com/airbnb/bnb-ifr-101"
    distance_km_to_center := 0.9, room_type := "private_room" }

/-- Fourth mock listing of `providers/mock.py`. -/
def mockListing4 : StayListing :=
  { id := "bnb-ifr-102", platform := "airbnb", name := "Family Apartment (Mock)"
    area := "City Center", nightly_price := 72, rating := 4.86, reviews := 89
    amenities := ["wifi", "kitchen", "heating"]
    url := "https://example.com/airbnb/bnb-ifr-102"
    distance_km_to_center := 1.1, room_type := "entire_place" }

/-- `MOCK_LISTINGS` from `providers/mock.py`. -/
def MOCK_LISTINGS : List StayListing :=
  [mockListing1, mockListing2, mockListing3, mockListing4]

/-- `BookingSearchRequest` from `providers/booking_demand.py`. -/
structure BookingSearchRequest where
  city : String
  checkin : Date
  checkout : Date
  adults : Nat

/-- `AirbnbSearchRequest` from `providers/airbnb_partner.py`. -/
structure AirbnbSearchRequest where
  query : String
  checkin : Date
  checkout : Date
  adults : Nat

/-- Environment of `fetch_listings`: the credential env vars together
with the provider search calls. The shipped clients are stubs whose
`search_stays` returns `[]`; keeping the call abstract lets the fallback
contract be stated for any provider behaviour. -/
structure ProviderEnv where
  booking_token : Option String
  booking_affiliate_id : Option String
  airbnb_token : Option String
  bookingSearch : BookingSearchRequest → List StayListing
  airbnbSearch : AirbnbSearchRequest → List StayListing

/-- Python truthiness of an `os.getenv` result. -/
def truthy : Option String → Bool
  | none => false
  | some s => !(s == "")

/-- The `booking_listings` value computed by `fetch_listings`. -/
def booking_result (trip : TripInput) (env : ProviderEnv) : List StayListing :=
  if truthy env.booking_token && truthy env.booking_affiliate_id then
    env.bookingSearch ⟨trip.destination, trip.start_date, trip.end_date, trip.travelers⟩
  else []

/-- The `airbnb_listings` value computed by `fetch_listings`. -/
def airbnb_result (trip : TripInput) (env : ProviderEnv) : List StayListing :=
  if truthy env.airbnb_token then
    env.airbnbSearch ⟨trip.destination, trip.start_date, trip.end_date, trip.travelers⟩
  else []

/-- `fetch_listings` from `app.py`. -/
def fetch_listings (trip : TripInput) (env : ProviderEnv) : List StayListing :=
  let combined := booking_result trip env ++ airbnb_result trip env
  if combined.isEmpty then MOCK_LISTINGS else combined

/-- The dealbreaker-filtered listing list of `recommend_stays`. -/
def survivorsOf (trip : TripInput) (env : ProviderEnv) : List StayListing :=
  (fetch_listings trip env).filter (fun l => dealbreaker_ok l.room_type trip.dealbreakers)

/-- The `scored` list of `recommend_stays`. -/
def scoredOf (trip : TripInput) (env : ProviderEnv) :
    List (ℝ × StayListing × ScoreBreakdown) :=
  (survivorsOf trip env).map (fun l => ((score_listing l trip).1, l, (score_listing l trip).2))

/-- The comparison of `scored.sort(key=lambda x: x[0], reverse=True)`:
descending by score, stable. -/
def scoreDescLe (a b : ℝ × StayListing × ScoreBreakdown) : Bool := decide (b.1 ≤ a.1)

/-- The `scored` list after the stable descending sort. -/
def sortedOf (trip : TripInput) (env : ProviderEnv) :
    List (ℝ × StayListing × ScoreBreakdown) :=
  (scoredOf trip env).mergeSort scoreDescLe

/-- `recommend_stays` from `app.py`. -/
def recommend_stays (trip : TripInput) (env : ProviderEnv) : StaysResponse :=
  let n := nights_between trip.start_date trip.end_date
  let recs := ((sortedOf trip env).take 10).map (fun x =>
    { listing := x.2.1
      match_score := roundTo 1 x.1
      why := explain_listing x.2.1 trip x.2.2
      est_total_price := roundTo 2 (x.2.1.nightly_price * (n : ℝ)) : StayRecommendation })
  { destination := trip.destination
    nights := n
    currency_note := "Set keys in .env to use Booking Demand API / Airbnb partner stub; otherwise mock data."
    recommendations := recs }

/-- A deployment with no provider credentials and the shipped stub
clients, whose `search_stays` returns the empty list. -/
def stubEnv : ProviderEnv :=
  { booking_token := none, booking_affiliate_id := none, airbnb_token := none
    bookingSearch := fun _ => [], airbnbSearch := fun _ => [] }

/-- A listing used to exercise the provider path of `fetch_listings`. -/
def providerListing : StayListing :=
  { id := "bkg-x-1", platform := "booking", name := "Provider Hotel", area := "City Center"
    nightly_price := 80, rating := 8.0, reviews := 120, amenities := ["wifi"]
    url := "https://example.com/booking/bkg-x-1", distance_km_to_center := 1
    room_type := "hotel_room" }

/-- An environment with booking credentials whose search returns one listing. -/
def credEnv : ProviderEnv :=
  { booking_token := some "token", booking_affiliate_id := some "aff", airbnb_token := none
    bookingSearch := fun _ => [providerListing], airbnbSearch := fun _ => [] }

/-- The example trip of the spec's end-to-end itinerary test. -/
def exTripItin : TripInput :=
  { destination := "Ifrane, Morocco", start_date := ⟨2024, 1, 10⟩, end_date := ⟨2024, 1, 12⟩
    travelers := 2, nightly_budget := 70, style := "relaxed"
    must_haves := [], dealbreakers := [], prefer_areas := [] }

/-- The example trip with an `entire_place` dealbreaker tag. -/
def exTripDeal : TripInput := { exTripItin with dealbreakers := ["entire_place"] }

/-- The example trip with a capitalized `Shared_Room` dealbreaker tag. -/
def exTripShared : TripInput := { exTripItin with dealbreakers := ["Shared_Room"] }

/-- A listing whose room type is the lowercase literal `shared_room`. -/
def sharedRoomListing : StayListing :=
  { providerListing with id := "shr-1", room_type := "shared_room" }

/-- A listing whose room type carries unusual capitalization. -/
def camelRoomListing : StayListing :=
  { providerListing with id := "shr-2", room_type := "Shared_Room" }

end

/-! ### Helper lemmas -/

lemma roundTo_natCast (p k : Nat) : roundTo p ((k : ℕ) : ℝ) = (k : ℝ) := by
  rw [roundTo]
  have h1 : ((k : ℝ) * 10 ^ p) = (((k * 10 ^ p : ℕ) : ℤ) : ℝ) := by push_cast; ring
  rw [h1, round_intCast]
  push_cast
  rw [mul_div_assoc, div_self (by positivity), mul_one]

lemma generate_itinerary_days_length (trip : TripInput) :
    (generate_itinerary trip).days.length
      = (max 1 (trip.end_date.toOrdinal - trip.start_date.toOrdinal)).toNat := by
  simp [generate_itinerary]

lemma generate_itinerary_days_get (trip : TripInput) (i : Nat)
    (h : i < (generate_itinerary trip).days.length) :
    (generate_itinerary trip).days.get ⟨i, h⟩
      = { date := trip.start_date.toOrdinal + Int.ofNat i
          morning := (morning_opts (pyStrip (pyLower trip.style))).getD
            "Town center walk + scenic stop"
          afternoon := (afternoon_opts (pyStrip (pyLower trip.style))).getD
            "Lunch + one planned activity"
          evening := (evening_opts (pyStrip (pyLower trip.style))).getD
            "Dinner + optional stroll"
          est_cost := roundTo 2
            (((base_pp (pyStrip (pyLower trip.style)) + (i % 3) * 3) * trip.travelers : Nat) : ℝ) } := by
  simp [generate_itinerary, List.get_eq_getElem]


lemma generate_itinerary_map_morning (trip : TripInput) :
    (generate_itinerary trip).days.map (fun d => d.morning)
      = List.replicate (generate_itinerary trip).days.length
          ((morning_opts (pyStrip (pyLower trip.style))).getD "Town center walk + scenic stop") := by
  refine List.eq_replicate_iff.mpr ⟨by simp, ?_⟩
  intro b hb
  simp only [generate_itinerary, List.mem_map, List.mem_range] at hb
  obtain ⟨d, ⟨i, -, rfl⟩, rfl⟩ := hb
  rfl

lemma generate_itinerary_map_afternoon (trip : TripInput) :
    (generate_itinerary trip).days.map (fun d => d.afternoon)
      = List.replicate (generate_itinerary trip).days.length
          ((afternoon_opts (pyStrip (pyLower trip.style))).getD "Lunch + one planned activity") := by
  refine List.eq_replicate_iff.mpr ⟨by simp, ?_⟩
  intro b hb
  simp only [generate_itinerary, List.mem_map, List.mem_range] at hb
  obtain ⟨d, ⟨i, -, rfl⟩, rfl⟩ := hb
  rfl

lemma generate_itinerary_map_evening (trip : TripInput) :
    (generate_itinerary trip).days.map (fun d => d.evening)
      = List.replicate (generate_itinerary trip).days.length
          ((evening_opts (pyStrip (pyLower trip.style))).getD "Dinner + optional stroll") := by
  refine List.eq_replicate_iff.mpr ⟨by simp, ?_⟩
  intro b hb
  simp only [generate_itinerary, List.mem_map, List.mem_range] at hb
  obtain ⟨d, ⟨i, -, rfl⟩, rfl⟩ := hb
  rfl

lemma generate_itinerary_map_est_cost (trip : TripInput) :
    (generate_itinerary trip).days.map (fun d => d.est_cost)
      = (List.range (generate_itinerary trip).days.length).map
          (fun i => (((base_pp (pyStrip (pyLower trip.style)) + (i % 3) * 3)
              * trip.travelers : Nat) : ℝ)) := by
  simp only [generate_itinerary, List.map_map, Function.comp_def, List.length_map,
    List.length_range]
  apply List.map_congr_left
  intro i _
  exact roundTo_natCast 2 _

lemma generate_itinerary_total (trip : TripInput) :
    (generate_itinerary trip).total_est_cost
      = roundTo 2 (((generate_itinerary trip).days.map (fun d => d.est_cost)).sum) := rfl

lemma exTripItin_style : pyStrip (pyLower exTripItin.style) = "relaxed" := by decide

lemma exTripItin_len : (generate_itinerary exTripItin).days.length = 2 := by decide

lemma exTripItin_costs :
    (generate_itinerary exTripItin).days.map (fun d => d.est_cost) = [(60 : ℝ), 66] := by
  rw [generate_itinerary_map_est_cost, exTripItin_len, exTripItin_style]
  norm_num [List.range_succ, base_pp, exTripItin]

lemma natCast_map_sum (g : Nat → Nat) (l : List Nat) :
    (l.map (fun i => ((g i : Nat) : ℝ))).sum = (((l.map g).sum : Nat) : ℝ) := by
  induction l with
  | nil => simp
  | cons a t ih => simp [ih]

lemma exTripItin_total : (generate_itinerary exTripItin).total_est_cost = 126 := by
  rw [generate_itinerary_total, exTripItin_costs]
  have h := roundTo_natCast 2 126
  push_cast at h
  norm_num [List.sum_cons, List.sum_nil, h]

/-- C5: for every trip request with valid dates, `generate_itinerary`
produces exactly `max(1, (end_date - start_date).days)` day records, and
every day's morning/afternoon/evening text is the per-slot table entry
for the trip's lowercased-and-stripped style, falling back to the
"balanced" entries when the style is not one of the six recognized keys. -/
theorem claim_C5_itinerary_days (trip : TripInput) :
    (generate_itinerary trip).days.length
        = (max 1 (trip.end_date.toOrdinal - trip.start_date.toOrdinal)).toNat
    ∧ (pyStrip (pyLower trip.style) = "relaxed" →
        (generate_itinerary trip).days.map (fun d => d.morning)
            = List.replicate (generate_itinerary trip).days.length
                "Slow breakfast + cedar forest walk"
        ∧ (generate_itinerary trip).days.map (fun d => d.afternoon)
            = List.replicate (generate_itinerary trip).days.length
                "Lakeside chill time + coffee"
        ∧ (generate_itinerary trip).days.map (fun d => d.evening)
            = List.replicate (generate_itinerary trip).days.length
                "Sunset viewpoint + easy dinner")
    ∧ (pyStrip (pyLower trip.style) = "packed" →
        (generate_itinerary trip).days.map (fun d => d.morning)
            = List.replicate (generate_itinerary trip).days.length
                "Early start: viewpoints + town highlights"
        ∧ (generate_itinerary trip).days.map (fun d => d.afternoon)
            = List.replicate (generate_itinerary trip).days.length
                "Outdoor activity (hike / excursion)"
        ∧ (generate_itinerary trip).days.map (fun d => d.evening)
            = List.replicate (generate_itinerary trip).days.length
                "Dinner + night walk loop")
    ∧ (pyStrip (pyLower trip.style) = "foodie" →
        (generate_itinerary trip).days.map (fun d => d.morning)
            = List.replicate (generate_itinerary trip).days.length
                "Local café + pastry stop"
        ∧ (generate_itinerary trip).days.map (fun d => d.afternoon)
            = List.replicate (generate_itinerary trip).days.length
                "Try local tagine + tea time"
        ∧ (generate_itinerary trip).days.map (fun d => d.evening)
            = List.replicate (generate_itinerary trip).days.length
                "Dinner + dessert tasting")
    ∧ (pyStrip (pyLower trip.style) = "culture" →
        (generate_itinerary trip).days.map (fun d => d.morning)
            = List.replicate (generate_itinerary trip).days.length
                "Azrou day trip idea + cedar forest history"
        ∧ (generate_itinerary trip).days.map (fun d => d.afternoon)
            = List.replicate (generate_itinerary trip).days.length
                "Local crafts + heritage walk"
        ∧ (generate_itinerary trip).days.map (fun d => d.evening)
            = List.replicate (generate_itinerary trip).days.length
                "Traditional dinner + mint tea")
    ∧ (pyStrip (pyLower trip.style) = "nightlife" →
        (generate_itinerary trip).days.map (fun d => d.morning)
            = List.replicate (generate_itinerary trip).days.length
                "Café hopping + evening stroll"
        ∧ (generate_itinerary trip).days.map (fun d => d.afternoon)
            = List.replicate (generate_itinerary trip).days.length
                "Rooftop lunch + downtime"
        ∧ (generate_itinerary trip).days.map (fun d => d.evening)
            = List.replicate (generate_itinerary trip).days.length
                "Lounge/café + late tea")
    ∧ (pyStrip (pyLower trip.style) ∉
          (["relaxed", "packed", "foodie", "culture", "nightlife"] : List String) →
        (generate_itinerary trip).days.map (fun d => d.morning)
            = List.replicate (generate_itinerary trip).days.length
                "Town center walk + scenic stop"
        ∧ (generate_itinerary trip).days.map (fun d => d.afternoon)
            = List.replicate (generate_itinerary trip).days.length
                "Lunch + one planned activity"
        ∧ (generate_itinerary trip).days.map (fun d => d.evening)
            = List.replicate (generate_itinerary trip).days.length
                "Dinner + optional stroll") := by
  refine ⟨generate_itinerary_days_length trip, ?_, ?_, ?_, ?_, ?_, ?_⟩ <;> intro hst
  · exact ⟨by rw [generate_itinerary_map_morning]; simp [hst, morning_opts],
      by rw [generate_itinerary_map_afternoon]; simp [hst, afternoon_opts],
      by rw [generate_itinerary_map_evening]; simp [hst, evening_opts]⟩
  · exact ⟨by rw [generate_itinerary_map_morning]; simp [hst, morning_opts],
      by rw [generate_itinerary_map_afternoon]; simp [hst, afternoon_opts],
      by rw [generate_itinerary_map_evening]; simp [hst, evening_opts]⟩
  · exact ⟨by rw [generate_itinerary_map_morning]; simp [hst, morning_opts],
      by rw [generate_itinerary_map_afternoon]; simp [hst, afternoon_opts],
      by rw [generate_itinerary_map_evening]; simp [hst, evening_opts]⟩
  · exact ⟨by rw [generate_itinerary_map_morning]; simp [hst, morning_opts],
      by rw [generate_itinerary_map_afternoon]; simp [hst, afternoon_opts],
      by rw [generate_itinerary_map_evening]; simp [hst, evening_opts]⟩
  · exact ⟨by rw [generate_itinerary_map_morning]; simp [hst, morning_opts],
      by rw [generate_itinerary_map_afternoon]; simp [hst, afternoon_opts],
      by rw [generate_itinerary_map_evening]; simp [hst, evening_opts]⟩
  · simp only [List.mem_cons, List.not_mem_nil, or_false, not_or] at hst
    obtain ⟨h1, h2, h3, h4, h5⟩ := hst
    by_cases h6 : pyStrip (pyLower trip.style) = "balanced"
    · exact ⟨by rw [generate_itinerary_map_morning]; simp [h6, morning_opts],
        by rw [generate_itinerary_map_afternoon]; simp [h6, afternoon_opts],
        by rw [generate_itinerary_map_evening]; simp [h6, evening_opts]⟩
    · refine ⟨?_, ?_, ?_⟩
      · rw [generate_itinerary_map_morning]
        simp [morning_opts, h1, h2, h3, h4, h5, h6]
      · rw [generate_itinerary_map_afternoon]
        simp [afternoon_opts, h1, h2, h3, h4, h5, h6]
      · rw [generate_itinerary_map_evening]
        simp [evening_opts, h1, h2, h3, h4, h5, h6]

/-- C5 witness: the spec's example trip has style `relaxed`; its days
all carry the `relaxed` slot texts. -/
theorem claim_C5_itinerary_days_witness :
    pyStrip (pyLower exTripItin.style) = "relaxed"
    ∧ ((generate_itinerary exTripItin).days.map (fun d => d.morning)
          = List.replicate (generate_itinerary exTripItin).days.length
              "Slow breakfast + cedar forest walk"
      ∧ (generate_itinerary exTripItin).days.map (fun d => d.afternoon)
          = List.replicate (generate_itinerary exTripItin).days.length
              "Lakeside chill time + coffee"
      ∧ (generate_itinerary exTripItin).days.map (fun d => d.evening)
          = List.replicate (generate_itinerary exTripItin).days.length
              "Sunset viewpoint + easy dinner") :=
  ⟨by decide, (claim_C5_itinerary_days exTripItin).2.1 (by decide)⟩

/-- C6: each day's estimated cost is
`(base_per_person_cost[style] + 3 * (day_index mod 3)) * travelers`, and
on the spec's example trip (2024-01-10 to 2024-01-12, 2 travelers,
style relaxed) the itinerary has 2 days costing 60.0 and 66.0 with a
total of 126.0. -/
theorem claim_C6_itinerary_costs (trip : TripInput) :
    (generate_itinerary trip).days.map (fun d => d.est_cost)
        = (List.range (generate_itinerary trip).days.length).map
            (fun i => (((base_pp (pyStrip (pyLower trip.style)) + 3 * (i % 3))
                * trip.travelers : Nat) : ℝ))
    ∧ (generate_itinerary exTripItin).days.length = 2
    ∧ (generate_itinerary exTripItin).days.map (fun d => d.est_cost) = [(60 : ℝ), 66]
    ∧ (generate_itinerary exTripItin).total_est_cost = 126 := by
  refine ⟨?_, exTripItin_len, exTripItin_costs, exTripItin_total⟩
  rw [generate_itinerary_map_est_cost]
  apply List.map_congr_left
  intro i _
  exact congrArg Nat.cast (by ring)

/-- C9: for every trip, every per-day estimated cost is unchanged by the
2-decimal rounding, and `total_est_cost` equals the exact unrounded sum
of the day costs, so the rounding drift the spec allows for never
occurs. -/
theorem claim_C9_rounding_identity (trip : TripInput) :
    ((generate_itinerary trip).days.map (fun d => d.est_cost)).map (roundTo 2)
        = (generate_itinerary trip).days.map (fun d => d.est_cost)
    ∧ (generate_itinerary trip).total_est_cost
        = ((generate_itinerary trip).days.map (fun d => d.est_cost)).sum := by
  have hmap := generate_itinerary_map_est_cost trip
  constructor
  · rw [hmap, List.map_map]
    apply List.map_congr_left
    intro i _
    exact roundTo_natCast 2 _
  · rw [generate_itinerary_total, hmap, natCast_map_sum]
    exact roundTo_natCast 2 _

lemma clamp01_nonneg (x : ℝ) : 0 ≤ clamp x 0 1 := le_max_left _ _

lemma clamp01_le_one (x : ℝ) : clamp x 0 1 ≤ 1 := max_le zero_le_one (min_le_left _ _)

lemma clamp01_mem (x : ℝ) : 0 ≤ clamp x 0 1 ∧ clamp x 0 1 ≤ 1 :=
  ⟨clamp01_nonneg x, clamp01_le_one x⟩

/-- C2 counterexample: at `nightly_budget = 1e-7` and
`nightly_price = 2e-7` the overrun fraction `(price - budget)/budget`
is `1 ≥ 1/1.4`, yet the score is `0.86`, not `0`: the code divides the
overrun by `max(budget, 1e-6)`, not by the budget itself. -/
theorem claim_C2_budget_fit_cex :
    (0:ℝ) < 1e-7 ∧ ((2e-7 : ℝ) - 1e-7) / 1e-7 ≥ 1 / 1.4
      ∧ budget_fit_score 2e-7 1e-7 ≠ 0 := by
  refine ⟨by norm_num, by norm_num, ?_⟩
  rw [budget_fit_score, if_neg (by norm_num)]
  have hmax : max (1e-7 : ℝ) 1e-6 = 1e-6 := max_eq_right (by norm_num)
  rw [hmax, clamp]
  norm_num

/-- C2 (amended): for every `nightly_budget > 0`, a price within budget
scores in `[0.85, 1]`; above budget the score is strictly decreasing in
the code's overrun fraction `(price - budget)/max(budget, 1e-6)` where
it is positive, and is `0` exactly once that fraction reaches `1/1.4`.
(The fraction equals `(price - budget)/budget` whenever the budget is at
least `1e-6`.) -/
theorem claim_C2_budget_fit (b q p1 p2 r : ℝ) (hb : 0 < b) :
    (q ≤ b → 0.85 ≤ budget_fit_score q b ∧ budget_fit_score q b ≤ 1)
    ∧ (b < p1 → b < p2 →
        (p1 - b) / max b 1e-6 < (p2 - b) / max b 1e-6 →
        0 < budget_fit_score p1 b →
        budget_fit_score p2 b < budget_fit_score p1 b)
    ∧ (b < r → 1 / 1.4 ≤ (r - b) / max b 1e-6 → budget_fit_score r b = 0) := by
  have hm : (0:ℝ) < max b 1e-6 := lt_of_lt_of_le (by norm_num) (le_max_right _ _)
  refine ⟨?_, ?_, ?_⟩
  · intro hq
    rw [budget_fit_score, if_pos hq]
    refine ⟨?_, clamp01_le_one _⟩
    have hq1 : q / max b 1e-6 ≤ 1 := by
      rw [div_le_one hm]
      exact le_trans hq (le_max_left _ _)
    have hv : (0.85:ℝ) ≤ 0.85 + 0.15 * (1 - q / max b 1e-6) := by nlinarith
    exact le_trans (le_min (by norm_num) hv) (le_max_right _ _)
  · intro hp1 hp2 hover hpos
    have h01 : 0 < (p1 - b) / max b 1e-6 := div_pos (by linarith) hm
    have hmin1 : min (1:ℝ) (1 - 1.4 * ((p1 - b) / max b 1e-6))
        = 1 - 1.4 * ((p1 - b) / max b 1e-6) := min_eq_right (by nlinarith)
    have h02 : 0 < (p2 - b) / max b 1e-6 := div_pos (by linarith) hm
    have hmin2 : min (1:ℝ) (1 - 1.4 * ((p2 - b) / max b 1e-6))
        = 1 - 1.4 * ((p2 - b) / max b 1e-6) := min_eq_right (by nlinarith)
    have e1 : budget_fit_score p1 b = max 0 (1 - 1.4 * ((p1 - b) / max b 1e-6)) := by
      rw [budget_fit_score, if_neg (not_le.mpr hp1), clamp, hmin1]
    have e2 : budget_fit_score p2 b = max 0 (1 - 1.4 * ((p2 - b) / max b 1e-6)) := by
      rw [budget_fit_score, if_neg (not_le.mpr hp2), clamp, hmin2]
    rw [e1] at hpos ⊢
    rw [e2]
    have hv1pos : 0 < 1 - 1.4 * ((p1 - b) / max b 1e-6) := by
      by_contra hneg
      push_neg at hneg
      rw [max_eq_left hneg] at hpos
      exact lt_irrefl 0 hpos
    rw [max_eq_right (le_of_lt hv1pos)] at hpos ⊢
    rcases le_or_lt (1 - 1.4 * ((p2 - b) / max b 1e-6)) 0 with hc | hc
    · rw [max_eq_left hc]
      exact hpos
    · rw [max_eq_right (le_of_lt hc)]
      nlinarith
  · intro hr hover
    rw [budget_fit_score, if_neg (not_le.mpr hr), clamp]
    have hv : 1 - 1.4 * ((r - b) / max b 1e-6) ≤ 0 := by nlinarith
    rw [min_eq_right (le_trans hv zero_le_one), max_eq_left hv]

/-- C2 witness: budget 10, prices 8 (within), 12 and 15 (overruns),
30 (past the zero threshold). -/
theorem claim_C2_budget_fit_witness :
    (0:ℝ) < 10
    ∧ (((8:ℝ) ≤ 10 → 0.85 ≤ budget_fit_score 8 10 ∧ budget_fit_score 8 10 ≤ 1)
      ∧ ((10:ℝ) < 12 → (10:ℝ) < 15 →
          ((12:ℝ) - 10) / max 10 1e-6 < ((15:ℝ) - 10) / max 10 1e-6 →
          0 < budget_fit_score 12 10 →
          budget_fit_score 15 10 < budget_fit_score 12 10)
      ∧ ((10:ℝ) < 30 → 1 / 1.4 ≤ ((30:ℝ) - 10) / max 10 1e-6 →
          budget_fit_score 30 10 = 0)) :=
  ⟨by norm_num, claim_C2_budget_fit 10 8 12 15 30 (by norm_num)⟩

lemma budget_fit_score_mem (p b : ℝ) :
    0 ≤ budget_fit_score p b ∧ budget_fit_score p b ≤ 1 := by
  rw [budget_fit_score]
  split_ifs <;> exact clamp01_mem _

lemma quality_score_mem (pf : String) (r : ℝ) (n : Nat) :
    0 ≤ quality_score pf r n ∧ quality_score pf r n ≤ 1 := by
  simp only [quality_score]
  exact clamp01_mem _

lemma location_score_mem (d : ℝ) : 0 ≤ location_score d ∧ location_score d ≤ 1 := by
  rw [location_score]
  exact clamp01_mem _

lemma amenities_score_mem (la mh : List String) :
    0 ≤ amenities_score la mh ∧ amenities_score la mh ≤ 1 := by
  rw [amenities_score]
  split_ifs
  · norm_num
  · exact clamp01_mem _

lemma area_bonus_eq (a : String) (ps : List String) :
    area_bonus a ps = if (ps.map pyLower).contains (pyLower a) then 0.12 else 0 := by
  cases ps with
  | nil => simp [area_bonus]
  | cons x xs => simp [area_bonus]

/-- C3: the composite score is `100 × clamp(0.40·budget + 0.25·quality
+ 0.20·location + 0.15·amenities + bonus, 0, 1)` with a `0.12` bonus
exactly when the listing's area case-insensitively equals a preferred
area; each sub-score lies in `[0, 1]` and the composite in `[0, 100]`. -/
theorem claim_C3_composite (l : StayListing) (trip : TripInput)
    (hb : 0 < trip.nightly_budget) (hd : 0 ≤ l.distance_km_to_center) :
    (score_listing l trip).1
        = 100 * clamp
            (0.40 * budget_fit_score l.nightly_price trip.nightly_budget
              + 0.25 * quality_score l.platform l.rating l.reviews
              + 0.20 * location_score l.distance_km_to_center
              + 0.15 * amenities_score l.amenities trip.must_haves
              + (if (trip.prefer_areas.map pyLower).contains (pyLower l.area)
                  then 0.12 else 0)) 0 1
    ∧ (0 ≤ budget_fit_score l.nightly_price trip.nightly_budget
        ∧ budget_fit_score l.nightly_price trip.nightly_budget ≤ 1)
    ∧ (0 ≤ quality_score l.platform l.rating l.reviews
        ∧ quality_score l.platform l.rating l.reviews ≤ 1)
    ∧ (0 ≤ location_score l.distance_km_to_center
        ∧ location_score l.distance_km_to_center ≤ 1)
    ∧ (0 ≤ amenities_score l.amenities trip.must_haves
        ∧ amenities_score l.amenities trip.must_haves ≤ 1)
    ∧ 0 ≤ (score_listing l trip).1 ∧ (score_listing l trip).1 ≤ 100 := by
  have hbase : (score_listing l trip).1
      = clamp (0.40 * budget_fit_score l.nightly_price trip.nightly_budget
          + 0.25 * quality_score l.platform l.rating l.reviews
          + 0.20 * location_score l.distance_km_to_center
          + 0.15 * amenities_score l.amenities trip.must_haves
          + (if (trip.prefer_areas.map pyLower).contains (pyLower l.area)
              then 0.12 else 0)) 0 1 * 100 := by
    simp only [score_listing, area_bonus_eq]
  refine ⟨by rw [hbase, mul_comm], budget_fit_score_mem _ _, quality_score_mem _ _ _,
    location_score_mem _, amenities_score_mem _ _, ?_, ?_⟩
  · rw [hbase]
    have := clamp01_nonneg (0.40 * budget_fit_score l.nightly_price trip.nightly_budget
      + 0.25 * quality_score l.platform l.rating l.reviews
      + 0.20 * location_score l.distance_km_to_center
      + 0.15 * amenities_score l.amenities trip.must_haves
      + (if (trip.prefer_areas.map pyLower).contains (pyLower l.area) then 0.12 else 0))
    nlinarith
  · rw [hbase]
    have := clamp01_le_one (0.40 * budget_fit_score l.nightly_price trip.nightly_budget
      + 0.25 * quality_score l.platform l.rating l.reviews
      + 0.20 * location_score l.distance_km_to_center
      + 0.15 * amenities_score l.amenities trip.must_haves
      + (if (trip.prefer_areas.map pyLower).contains (pyLower l.area) then 0.12 else 0))
    nlinarith

/-- C3 witness: the first mock listing against the example trip
(budget 70 > 0, distance 0.6 ≥ 0). -/
theorem claim_C3_composite_witness :
    (0:ℝ) < exTripItin.nightly_budget
    ∧ (0:ℝ) ≤ mockListing1.distance_km_to_center
    ∧ ((score_listing mockListing1 exTripItin).1
        = 100 * clamp
            (0.40 * budget_fit_score mockListing1.nightly_price exTripItin.nightly_budget
              + 0.25 * quality_score mockListing1.platform mockListing1.rating mockListing1.reviews
              + 0.20 * location_score mockListing1.distance_km_to_center
              + 0.15 * amenities_score mockListing1.amenities exTripItin.must_haves
              + (if (exTripItin.prefer_areas.map pyLower).contains (pyLower mockListing1.area)
                  then 0.12 else 0)) 0 1
      ∧ (0 ≤ budget_fit_score mockListing1.nightly_price exTripItin.nightly_budget
          ∧ budget_fit_score mockListing1.nightly_price exTripItin.nightly_budget ≤ 1)
      ∧ (0 ≤ quality_score mockListing1.platform mockListing1.rating mockListing1.reviews
          ∧ quality_score mockListing1.platform mockListing1.rating mockListing1.reviews ≤ 1)
      ∧ (0 ≤ location_score mockListing1.distance_km_to_center
          ∧ location_score mockListing1.distance_km_to_center ≤ 1)
      ∧ (0 ≤ amenities_score mockListing1.amenities exTripItin.must_haves
          ∧ amenities_score mockListing1.amenities exTripItin.must_haves ≤ 1)
      ∧ 0 ≤ (score_listing mockListing1 exTripItin).1
      ∧ (score_listing mockListing1 exTripItin).1 ≤ 100) :=
  ⟨by norm_num [exTripItin], by norm_num [mockListing1],
    claim_C3_composite mockListing1 exTripItin (by norm_num [exTripItin])
      (by norm_num [mockListing1])⟩

/-- C7: when every configured provider search yields an empty set (the
no-credentials case included), `fetch_listings` returns exactly the
4-listing mock catalog; when the concatenated provider results are
non-empty, they are returned and the mock catalog is not used. -/
theorem claim_C7_mock_fallback (trip : TripInput) (env : ProviderEnv) :
    ((booking_result trip env = [] ∧ airbnb_result trip env = []) →
        fetch_listings trip env = MOCK_LISTINGS ∧ MOCK_LISTINGS.length = 4)
    ∧ (booking_result trip env ++ airbnb_result trip env ≠ [] →
        fetch_listings trip env
          = booking_result trip env ++ airbnb_result trip env) := by
  constructor
  · rintro ⟨hb, ha⟩
    refine ⟨?_, rfl⟩
    rw [fetch_listings]
    simp [hb, ha]
  · intro hne
    rw [fetch_listings]
    rw [if_neg (by simpa [List.isEmpty_iff] using hne)]

/-- C7 witness: with no credentials the mock catalog is served; with
booking credentials and a non-empty search result, that result is
served. -/
theorem claim_C7_mock_fallback_witness :
    fetch_listings exTripItin stubEnv = MOCK_LISTINGS
    ∧ MOCK_LISTINGS.length = 4
    ∧ fetch_listings exTripItin credEnv
        = booking_result exTripItin credEnv ++ airbnb_result exTripItin credEnv :=
  ⟨((claim_C7_mock_fallback exTripItin stubEnv).1 ⟨rfl, rfl⟩).1,
    ((claim_C7_mock_fallback exTripItin stubEnv).1 ⟨rfl, rfl⟩).2,
    (claim_C7_mock_fallback exTripItin credEnv).2 (by simp [booking_result, credEnv, truthy])⟩

/-- C10: `dealbreaker_ok` lowercases the dealbreaker tags but compares
the room type by exact case-sensitive equality with the two literals,
so any listing whose room type differs from `shared_room` and
`private_room` (in case or spelling) passes the filter and stays
eligible, whatever the dealbreaker set. -/
theorem claim_C10_dealbreaker_case_sensitivity (trip : TripInput) (env : ProviderEnv)
    (l : StayListing) (h1 : l.room_type ≠ "shared_room")
    (h2 : l.room_type ≠ "private_room") :
    dealbreaker_ok l.room_type trip.dealbreakers = true
    ∧ (l ∈ fetch_listings trip env → l ∈ survivorsOf trip env) := by
  have hok : dealbreaker_ok l.room_type trip.dealbreakers = true := by
    rw [dealbreaker_ok]
    simp [h1, h2]
  exact ⟨hok, fun hm => List.mem_filter.mpr ⟨hm, hok⟩⟩

/-- C10 witness: a `Shared_Room` listing survives a trip whose
dealbreaker set names shared rooms. -/
theorem claim_C10_dealbreaker_case_sensitivity_witness :
    camelRoomListing.room_type ≠ "shared_room"
    ∧ camelRoomListing.room_type ≠ "private_room"
    ∧ (dealbreaker_ok camelRoomListing.room_type exTripShared.dealbreakers = true
      ∧ (camelRoomListing ∈ fetch_listings exTripShared stubEnv →
          camelRoomListing ∈ survivorsOf exTripShared stubEnv)) :=
  ⟨by decide, by decide,
    claim_C10_dealbreaker_case_sensitivity exTripShared stubEnv camelRoomListing
      (by decide) (by decide)⟩

/-- C8: `explain_listing` returns, in fixed order, a budget line, a
three-tier quality line, a location line, and — exactly when must-have
amenities were specified — an amenity-coverage line listing the missing
tags or confirming full coverage. -/
theorem claim_C8_explanations (l : StayListing) (trip : TripInput)
    (parts : ScoreBreakdown) :
    explain_listing l trip parts =
      [if l.nightly_price ≤ trip.nightly_budget then
          "Within your nightly budget (" ++ fmtInt l.nightly_price ++ " ≤ " ++
            fmtInt trip.nightly_budget ++ ")."
        else
          "Over budget by " ++ fmtInt (l.nightly_price - trip.nightly_budget) ++
            " per night (stretch option).",
        if parts.quality ≥ 0.8 then
          "Strong quality signals (rating " ++ fmtFloat l.rating ++ " with " ++
            toString l.reviews ++ " reviews)."
        else if l.reviews < 50 then
          "Fewer reviews than ideal—treat this option with a bit more caution."
        else
          "Solid rating (" ++ fmtFloat l.rating ++ ") and review count (" ++
            toString l.reviews ++ ").",
        if parts.location ≥ 0.6 then
          "Convenient location (~" ++ fmtDec1 l.distance_km_to_center ++ " km to center)."
        else
          "Farther from the center (~" ++ fmtDec1 l.distance_km_to_center ++
            " km)—better if you have transport."]
      ++ (if trip.must_haves = [] then []
          else [if trip.must_haves.filter
                  (fun m => !((l.amenities.map pyLower).contains (pyLower m))) = [] then
              "Meets all your must-have amenities."
            else
              "Missing: " ++ String.intercalate ", "
                  (trip.must_haves.filter
                    (fun m => !((l.amenities.map pyLower).contains (pyLower m)))) ++ "."]) := by
  simp only [explain_listing]
  by_cases hm : trip.must_haves = []
  · rw [if_pos hm, if_pos hm]
    simp only [List.cons_append, List.nil_append, List.append_nil]
  · rw [if_neg hm, if_neg hm]
    simp only [List.cons_append, List.nil_append]

lemma scoreDescLe_trans (a b c : ℝ × StayListing × ScoreBreakdown)
    (hab : scoreDescLe a b = true) (hbc : scoreDescLe b c = true) :
    scoreDescLe a c = true := by
  simp only [scoreDescLe, decide_eq_true_eq] at *
  exact le_trans hbc hab

lemma scoreDescLe_total (a b : ℝ × StayListing × ScoreBreakdown) :
    (scoreDescLe a b || scoreDescLe b a) = true := by
  simp only [scoreDescLe, Bool.or_eq_true, decide_eq_true_eq]
  exact le_total b.1 a.1

lemma recs_map_listing (trip : TripInput) (env : ProviderEnv) :
    (recommend_stays trip env).recommendations.map (fun r => r.listing)
      = ((sortedOf trip env).take 10).map (fun x => x.2.1) := by
  simp only [recommend_stays, List.map_map]
  rfl

lemma scoredOf_map_listing (trip : TripInput) (env : ProviderEnv) :
    (scoredOf trip env).map (fun x => x.2.1) = survivorsOf trip env := by
  rw [scoredOf, List.map_map]
  have hcomp : ((fun x : ℝ × StayListing × ScoreBreakdown => x.2.1)
      ∘ (fun l => ((score_listing l trip).1, l, (score_listing l trip).2))) = id := rfl
  rw [hcomp, List.map_id]

lemma mem_survivorsOf_of_mem_recs (trip : TripInput) (env : ProviderEnv)
    (l : StayListing)
    (h : l ∈ (recommend_stays trip env).recommendations.map (fun r => r.listing)) :
    l ∈ survivorsOf trip env := by
  rw [recs_map_listing] at h
  obtain ⟨x, hx, rfl⟩ := List.mem_map.mp h
  have hx1 : x ∈ sortedOf trip env := List.mem_of_mem_take hx
  have hx2 : x ∈ scoredOf trip env := by
    rw [sortedOf] at hx1
    exact List.mem_mergeSort.mp hx1
  obtain ⟨l', hl', rfl⟩ := List.mem_map.mp hx2
  exact hl'

lemma survivorsOf_dealbreaker (trip : TripInput) (env : ProviderEnv)
    (l : StayListing) (h : l ∈ survivorsOf trip env) :
    dealbreaker_ok l.room_type trip.dealbreakers = true :=
  (List.mem_filter.mp h).2

lemma dealbreaker_ok_false (rt : String) (db : List String)
    (h1 : rt = "shared_room" ∨ rt = "private_room")
    (h2 : rt ∈ db.map pyLower) : dealbreaker_ok rt db = false := by
  rcases h1 with h | h <;> subst h <;> simp [dealbreaker_ok] <;>
    exact List.mem_map.mp h2

/-- C1 (amended): a listing whose room type is one of the two literals
`shared_room`/`private_room` and whose room type appears
(case-insensitively) in the trip's dealbreaker set is never present in
the recommendations of `recommend_stays`; for the other two room types
of the enumeration the filter does not apply (see the counterexample
and C10). -/
theorem claim_C1_dealbreaker_excluded (trip : TripInput) (env : ProviderEnv)
    (l : StayListing) (h1 : l.room_type = "shared_room" ∨ l.room_type = "private_room")
    (h2 : l.room_type ∈ trip.dealbreakers.map pyLower) :
    l ∉ (recommend_stays trip env).recommendations.map (fun r => r.listing) := by
  intro hmem
  have hsurv := mem_survivorsOf_of_mem_recs trip env l hmem
  have hok := survivorsOf_dealbreaker trip env l hsurv
  rw [dealbreaker_ok_false l.room_type trip.dealbreakers h1 h2] at hok
  exact Bool.false_ne_true hok

/-- C1 witness: a `shared_room` listing is excluded when the trip's
dealbreakers contain `Shared_Room` (case-insensitively). -/
theorem claim_C1_dealbreaker_excluded_witness :
    (sharedRoomListing.room_type = "shared_room"
        ∨ sharedRoomListing.room_type = "private_room")
    ∧ sharedRoomListing.room_type ∈ exTripShared.dealbreakers.map pyLower
    ∧ sharedRoomListing
        ∉ (recommend_stays exTripShared stubEnv).recommendations.map (fun r => r.listing) :=
  ⟨Or.inl rfl, by decide,
    claim_C1_dealbreaker_excluded exTripShared stubEnv sharedRoomListing
      (Or.inl rfl) (by decide)⟩

/-- C1 counterexample: with dealbreaker set `{entire_place}` and the
mock catalog, the `entire_place` chalet still appears in the
recommendations — the filter only ever tests the `shared_room` and
`private_room` literals. -/
theorem claim_C1_dealbreaker_excluded_cex :
    mockListing2.room_type = "entire_place"
    ∧ "entire_place" ∈ exTripDeal.dealbreakers.map pyLower
    ∧ mockListing2
        ∈ (recommend_stays exTripDeal stubEnv).recommendations.map (fun r => r.listing) := by
  refine ⟨rfl, by decide, ?_⟩
  rw [recs_map_listing]
  have hsurv : survivorsOf exTripDeal stubEnv = MOCK_LISTINGS := rfl
  have hlen : (sortedOf exTripDeal stubEnv).length = 4 := by
    rw [sortedOf, List.length_mergeSort, scoredOf, List.length_map, hsurv]
    rfl
  rw [List.take_of_length_le (le_of_eq_of_le hlen (by norm_num))]
  have hperm : ((sortedOf exTripDeal stubEnv).map (fun x => x.2.1)).Perm
      ((scoredOf exTripDeal stubEnv).map (fun x => x.2.1)) := by
    rw [sortedOf]
    exact (List.mergeSort_perm _ _).map _
  apply hperm.mem_iff.mpr
  rw [scoredOf_map_listing, hsurv, MOCK_LISTINGS]
  exact List.mem_cons_of_mem _ (List.mem_cons_self _ _)

lemma roundTo_mono (p : Nat) {x y : ℝ} (h : x ≤ y) : roundTo p x ≤ roundTo p y := by
  rw [roundTo, roundTo]
  have hp : (0:ℝ) < 10 ^ p := by positivity
  have hr : round (x * 10 ^ p) ≤ round (y * 10 ^ p) := by
    rw [round_eq, round_eq]
    exact Int.floor_mono (by nlinarith)
  exact (div_le_div_iff_of_pos_right hp).mpr (by exact_mod_cast hr)

lemma stable_take_filter {α : Type} (le : α → α → Bool)
    (htrans : ∀ a b c, le a b = true → le b c = true → le a c = true)
    (htotal : ∀ a b, (le a b || le b a) = true)
    (p : α → Bool) (hp : ∀ a b, p a = true → p b = true → le a b = true)
    (l : List α) (n : Nat) :
    ((l.mergeSort le).take n).filter p <+: l.filter p := by
  have hpair : (l.filter p).Pairwise (fun a b => le a b = true) := by
    apply List.pairwise_of_forall_mem_list
    intro a ha b hb
    exact hp a b (List.mem_filter.mp ha).2 (List.mem_filter.mp hb).2
  have h1 : (l.filter p).Sublist (l.mergeSort le) :=
    List.sublist_mergeSort htrans htotal hpair (List.filter_sublist _)
  have h2 : (l.filter p).filter p = l.filter p :=
    List.filter_eq_self.mpr fun a ha => (List.mem_filter.mp ha).2
  have h3 : (l.filter p).Sublist ((l.mergeSort le).filter p) := by
    have h4 := List.Sublist.filter p h1
    rwa [h2] at h4
  have h5 : ((l.mergeSort le).filter p).Perm (l.filter p) := (List.mergeSort_perm l le).filter p
  have h6 : (l.mergeSort le).filter p = l.filter p := (h3.eq_of_length h5.length_eq.symm).symm
  calc ((l.mergeSort le).take n).filter p
      <+: (l.mergeSort le).filter p := by
        conv_rhs => rw [← List.take_append_drop n (l.mergeSort le)]
        rw [List.filter_append]
        exact List.prefix_append _ _
    _ = l.filter p := h6

/-- C4: the recommendations list has length
`min(10, surviving listings)`, is ordered non-increasingly by
`match_score`, and within each composite-score tie class the
recommended listings are an initial segment of the surviving listings
in their original catalog order (stable sort, no secondary key). -/
theorem claim_C4_ranking (trip : TripInput) (env : ProviderEnv) :
    (recommend_stays trip env).recommendations.length
        = min 10 (survivorsOf trip env).length
    ∧ (recommend_stays trip env).recommendations.Pairwise
        (fun r1 r2 => r2.match_score ≤ r1.match_score)
    ∧ ∀ s : ℝ,
        (((recommend_stays trip env).recommendations.filter
              (fun r => decide ((score_listing r.listing trip).1 = s))).map
            (fun r => r.listing))
          <+: ((survivorsOf trip env).filter
                (fun l => decide ((score_listing l trip).1 = s))) := by
  refine ⟨?_, ?_, ?_⟩
  · simp only [recommend_stays, List.length_map, List.length_take, sortedOf,
      List.length_mergeSort, scoredOf]
  · have hs : (sortedOf trip env).Pairwise (fun a b => scoreDescLe a b = true) := by
      rw [sortedOf]
      exact List.sorted_mergeSort scoreDescLe_trans scoreDescLe_total _
    have ht : ((sortedOf trip env).take 10).Pairwise (fun a b => scoreDescLe a b = true) :=
      List.Pairwise.sublist (List.take_sublist _ _) hs
    simp only [recommend_stays]
    rw [List.pairwise_map]
    apply ht.imp
    intro a b hab
    simp only [scoreDescLe, decide_eq_true_eq] at hab
    exact roundTo_mono 1 hab
  · intro s
    have key := stable_take_filter scoreDescLe scoreDescLe_trans scoreDescLe_total
      (fun x => decide (x.1 = s))
      (by
        intro a b ha hb
        simp only [decide_eq_true_eq] at ha hb
        simp only [scoreDescLe, ha, hb, le_refl, decide_eq_true_eq])
      (scoredOf trip env) 10
    have keymap := key.map (fun x : ℝ × StayListing × ScoreBreakdown => x.2.1)
    have hrecs_filter :
        (((recommend_stays trip env).recommendations.filter
              (fun r => decide ((score_listing r.listing trip).1 = s))).map
            (fun r => r.listing))
          = (((sortedOf trip env).take 10).filter
              (fun x => decide (x.1 = s))).map (fun x => x.2.1) := by
      simp only [recommend_stays]
      rw [List.filter_map, List.map_map]
      have hcong : List.filter
            ((fun r : StayRecommendation => decide ((score_listing r.listing trip).1 = s)) ∘
              (fun x : ℝ × StayListing × ScoreBreakdown =>
                ({ listing := x.2.1, match_score := roundTo 1 x.1
                   why := explain_listing x.2.1 trip x.2.2
                   est_total_price := roundTo 2 (x.2.1.nightly_price *
                      ((nights_between trip.start_date trip.end_date) : ℝ)) } :
                  StayRecommendation)))
            ((sortedOf trip env).take 10)
          = List.filter (fun x => decide (x.1 = s)) ((sortedOf trip env).take 10) := by
        apply List.filter_congr
        intro x hx
        have hx2 : x ∈ scoredOf trip env := by
          have hx1 := List.mem_of_mem_take hx
          rw [sortedOf] at hx1
          exact List.mem_mergeSort.mp hx1
        obtain ⟨l', hl', rfl⟩ := List.mem_map.mp hx2
        rfl
      rw [hcong]
      apply List.map_congr_left
      intro x hx
      rfl
    have hlast :
        ((scoredOf trip env).filter (fun x => decide (x.1 = s))).map
            (fun x : ℝ × StayListing × ScoreBreakdown => x.2.1)
          = (survivorsOf trip env).filter
              (fun l => decide ((score_listing l trip).1 = s)) := by
      rw [scoredOf, List.filter_map, List.map_map]
      have e1 : List.filter
            ((fun x : ℝ × StayListing × ScoreBreakdown => decide (x.1 = s)) ∘
              (fun l => ((score_listing l trip).1, l, (score_listing l trip).2)))
            (survivorsOf trip env)
          = List.filter (fun l => decide ((score_listing l trip).1 = s))
              (survivorsOf trip env) := by
        apply List.filter_congr
        intro x hx
        rfl
      rw [e1]
      rw [show ((fun x : ℝ × StayListing × ScoreBreakdown => x.2.1) ∘
          (fun l => ((score_listing l trip).1, l, (score_listing l trip).2))) = id from rfl]
      rw [List.map_id]
    rw [hrecs_filter, ← hlast]
    exact keymap
